import Mathlib

/-!
Verification of the keep-agent-running orchestration engine.

Shallow embedding of the Python implementation in
src/keep_agent_running/mock_implementations.py and
src/keep_agent_running/models/handlers.py.

Modelling conventions:
* Python ints become Nat; Python floats become Rat.
* Python dicts become association lists with insert-or-replace semantics.
* Wall-clock timestamps (created_at / updated_at / last_update) are not
  modelled: no verified property observes them.
* The asynchronous handler invocations of the execution loop are modelled
  by passing the handler result explicitly (the mock handlers are pure
  after erasing sleeps and prints).
-/

namespace KeepAgentRunning

/-- TaskStatus enum from protocols.py. -/
inductive TaskStatus where
  | PENDING
  | IN_PROGRESS
  | COMPLETED
  | FAILED
  | CANCELLED
deriving DecidableEq

/-- TaskPriority enum from protocols.py (LOW=1 .. CRITICAL=4). -/
inductive TaskPriority where
  | LOW
  | NORMAL
  | HIGH
  | CRITICAL
deriving DecidableEq

/-- Situation dataclass from protocols.py (last_update timestamp omitted:
wall-clock, unobserved by any verified property). -/
structure Situation where
  current_task_count : Nat
  completed_tasks : Nat
  failed_tasks : Nat
  total_tokens_used : Nat
  memory_usage : String
  execution_time : Rat
  active_agents : Nat
  status_summary : String
deriving DecidableEq

/-- The runtime_config dict consulted by MockConvergenceManager.should_terminate.
The Python code reads runtime_config.get with defaults 1000000 and 3600; the
structure carries the two effective values. -/
structure RuntimeConfig where
  token_limit : Nat
  time_limit : Rat
deriving DecidableEq

/-- MockTask dataclass (mock_implementations.py lines 30-42), without the two
wall-clock timestamp fields, which no verified property observes. -/
structure MockTask where
  id : String
  description : String
  status : TaskStatus
  priority : TaskPriority
  parent_task_id : Option String
  dependencies : List String
deriving DecidableEq

/-- TaskResult dataclass from protocols.py.  The mock implementations only ever
put strings into artifacts, so artifacts is List String here. -/
structure TaskResult where
  success : Bool
  artifacts : List String
  new_tasks : List MockTask
  messages : List String
  execution_time : Rat
  error : Option String
deriving DecidableEq

namespace MockTask

/-- MockTask.can_execute (mock_implementations.py lines 44-46):
status == PENDING and not self.dependencies. -/
def can_execute (t : MockTask) : Bool :=
  t.status == TaskStatus.PENDING && t.dependencies.isEmpty

/-- MockTask.update_status (mock_implementations.py lines 55-61): sets the new
status unconditionally (and refreshes updated_at, not modelled); the message is
only printed. -/
def update_status (t : MockTask) (status : TaskStatus) (_message : Option String) :
    MockTask :=
  { t with status := status }

end MockTask

namespace MockConvergenceManager

/-- MockConvergenceManager.should_terminate (mock_implementations.py
lines 162-181). -/
def should_terminate (situation : Situation) (runtime_config : RuntimeConfig) :
    Bool :=
  decide (situation.total_tokens_used > runtime_config.token_limit)
    || decide (situation.execution_time > runtime_config.time_limit)
    || (situation.current_task_count == 0 && situation.completed_tasks != 0)

/-- MockConvergenceManager.calculate_progress_score (lines 192-204). -/
def calculate_progress_score (situation : Situation) : Rat :=
  if situation.completed_tasks = 0 then 0
  else
    let total := situation.completed_tasks + situation.failed_tasks
      + situation.current_task_count
    if total > 0 then (situation.completed_tasks : Rat) / (total : Rat) else 0

end MockConvergenceManager

namespace MockLoopDetector

/-- MockLoopDetector.max_history (mock_implementations.py line 217). -/
def max_history : Nat := 20

/-- MockLoopDetector.record_state (lines 219-225): append the serialized
snapshot, then pop the oldest entry if the history exceeds max_history.
The state_history list is the detector's whole mutable state. -/
def record_state (state_history : List String) (state_str : String) :
    List String :=
  let h := state_history ++ [state_str]
  if h.length > max_history then h.drop 1 else h

/-- MockLoopDetector.is_loop_detected (lines 227-239): false on fewer than 3
entries, else true iff the most recent entry occurs more than twice. -/
def is_loop_detected (state_history : List String) : Bool :=
  if state_history.length < 3 then false
  else
    match state_history.getLast? with
    | none => false
    | some current_state => state_history.count current_state > 2

/-- MockLoopDetector.reset (lines 241-243): clears the history. -/
def reset (_state_history : List String) : List String := []

end MockLoopDetector

/-- MockVerifier.verify_task_completion (mock_implementations.py lines 273-276):
result.success and len(result.artifacts) > 0.  The task argument is unused by
the Python body beyond printing. -/
def MockVerifier.verify_task_completion (_task : MockTask) (result : TaskResult) :
    Bool :=
  result.success && result.artifacts.length != 0

/-- Insert-or-replace on an association list: the semantics of assignment into
a Python dict (an existing key keeps its position, a new key is appended). -/
def dictInsert (l : List (String × α)) (k : String) (v : α) : List (String × α) :=
  match l with
  | [] => [(k, v)]
  | (k', v') :: rest =>
      if k' = k then (k, v) :: rest else (k', v') :: dictInsert rest k v

/-- Lookup in an association list: Python dict indexing / .get. -/
def dictGet (l : List (String × α)) (k : String) : Option α :=
  match l with
  | [] => none
  | (k', v') :: rest => if k' = k then some v' else dictGet rest k

/-- MockTreeStructure state (mock_implementations.py lines 296-299): the task
dict, the insertion-ordered execution path, and the parent→children adjacency. -/
structure MockTreeStructure where
  tasks : List (String × MockTask)
  execution_path : List String
  parent_child : List (String × List String)
deriving DecidableEq

namespace MockTreeStructure

/-- The freshly initialized tree (MockTreeStructure.__init__). -/
def empty : MockTreeStructure := ⟨[], [], []⟩

/-- MockTreeStructure.add_task (mock_implementations.py lines 301-310): store
the task under its id, append the id to the execution path, and if a parent id
is present append the id to that parent's child list (creating the entry if
needed).  The Python body performs no validation of any kind. -/
def add_task (g : MockTreeStructure) (task : MockTask) : MockTreeStructure :=
  let tasks := dictInsert g.tasks task.id task
  let path := g.execution_path ++ [task.id]
  let pc :=
    match task.parent_task_id with
    | none => g.parent_child
    | some p =>
        match dictGet g.parent_child p with
        | none => dictInsert g.parent_child p [task.id]
        | some children => dictInsert g.parent_child p (children ++ [task.id])
  ⟨tasks, path, pc⟩

/-- MockTreeStructure.get_execution_path (lines 312-313). -/
def get_execution_path (g : MockTreeStructure) : List String :=
  g.execution_path

end MockTreeStructure

/-- Substring test on character lists: true iff pat occurs contiguously in s.
Models the Python expression `pat in s` on strings. -/
def listContainsSub (pat : List Char) : List Char → Bool
  | [] => pat.isEmpty
  | c :: rest => pat.isPrefixOf (c :: rest) || listContainsSub pat rest

/-- Python `pat in s` on strings. -/
def strContains (s pat : String) : Bool :=
  listContainsSub pat.toList s.toList

/-- Python str.lower(). -/
def strLower (s : String) : String :=
  String.map Char.toLower s

/-- MockUser dataclass (mock_implementations.py lines 119-127). -/
structure MockUser where
  id : String
  name : String
  expertise : List String
  is_available : Bool
  response_time_avg : Rat
deriving DecidableEq

/-- MockUser.can_handle_task (lines 147-156): available and the task
description mentions "review" or "critical" (case-insensitively). -/
def MockUser.can_handle_task (u : MockUser) (t : MockTask) : Bool :=
  let task_needs_human :=
    strContains (strLower t.description) "review"
      || strContains (strLower t.description) "critical"
  u.is_available && task_needs_human

/-- MockUser.handle_task (lines 129-145), with the asyncio sleep and prints
erased: always a successful one-artifact result. -/
def MockUser.handle_task (u : MockUser) (t : MockTask) : TaskResult :=
  { success := true
    artifacts := ["Human-reviewed result for task " ++ t.id]
    new_tasks := []
    messages := ["Reviewed and approved by " ++ u.name]
    execution_time := 2 / 10
    error := none }

/-- MockVE dataclass (mock_implementations.py lines 64-72). -/
structure MockVE where
  name : String
  model_type : String
  capabilities : List String
  is_available : Bool
  load_factor : Rat
deriving DecidableEq

/-- MockVE.can_handle_task (lines 111-116): available and load below 0.9. -/
def MockVE.can_handle_task (v : MockVE) (_t : MockTask) : Bool :=
  v.is_available && decide (v.load_factor < 9 / 10)

/-- MockVE.execute_task (lines 74-102) with the asyncio sleep and prints
erased: a successful result with one artifact, plus one subtask when the task
description contains "complex".  freshId stands for the uuid4 id the Python
code generates for the subtask. -/
def MockVE.execute_task (v : MockVE) (t : MockTask) (freshId : String) :
    TaskResult :=
  let new_tasks :=
    if strContains (strLower t.description) "complex" then
      [{ id := freshId
         description := "Subtask of " ++ t.description
         status := TaskStatus.PENDING
         priority := TaskPriority.NORMAL
         parent_task_id := some t.id
         dependencies := [] }]
    else []
  { success := true
    artifacts := ["Result artifact from " ++ v.name ++ " for task " ++ t.id]
    new_tasks := new_tasks
    messages := ["Completed by " ++ v.name]
    execution_time := 1 / 10
    error := none }

/-- A routed handler: either a human expert or a virtual environment. -/
inductive Handler where
  | user (u : MockUser)
  | ve (v : MockVE)
deriving DecidableEq

/-- MockTaskRouter.route_task (mock_implementations.py lines 337-358): first
human expert whose can_handle_task accepts, else first such VE, else None. -/
def MockTaskRouter.route_task (task : MockTask) (available_ves : List MockVE)
    (available_users : List MockUser) : Option Handler :=
  match available_users.find? (fun u => u.can_handle_task task) with
  | some u => some (Handler.user u)
  | none =>
      match available_ves.find? (fun v => v.can_handle_task task) with
      | some v => some (Handler.ve v)
      | none => none

/-- The MockProjectRuntime state touched by execute_task_loop
(mock_implementations.py lines 415-482): the pending queue, the handler pools,
the execution graph, accumulated artifacts, the situation, the loop detector
history, and the stop criteria dict. -/
structure EngineState where
  tasks : List MockTask
  ves_models : List MockVE
  expert_allowed : List MockUser
  execution_graph : MockTreeStructure
  artifacts_generated : List String
  current_situation : Situation
  loop_prevention : List String
  stop_criteria : RuntimeConfig
deriving DecidableEq

/-- In Python the task objects in the queue are the very objects stored in the
graph's task dict, so a status update on the current task is visible there
too; modelled by rewriting the graph entry with that id. -/
def MockTreeStructure.setStatus (g : MockTreeStructure) (id : String)
    (status : TaskStatus) : MockTreeStructure :=
  { g with
    tasks := g.tasks.map fun p =>
      if p.1 = id then (p.1, { p.2 with status := status }) else p }

/-- Number of tasks in the graph with the given status (the list comprehensions
of update_situation, lines 499-512). -/
def countStatus (g : MockTreeStructure) (s : TaskStatus) : Nat :=
  (g.tasks.filter fun p => p.2.status == s).length

/-- MockProjectRuntime.update_situation (lines 494-527): recount completed and
failed from the graph, set the pending count, add the mock 1000-token usage.
Wall-clock execution_time and last_update are not modelled. -/
def update_situation (st : EngineState) : Situation :=
  { st.current_situation with
    current_task_count := st.tasks.length
    completed_tasks := countStatus st.execution_graph TaskStatus.COMPLETED
    failed_tasks := countStatus st.execution_graph TaskStatus.FAILED
    total_tokens_used := st.current_situation.total_tokens_used + 1000 }

/-- MockProjectRuntime.should_continue (lines 529-538): not terminated by the
convergence manager, and the queue is non-empty. -/
def should_continue (st : EngineState) : Bool :=
  !(MockConvergenceManager.should_terminate st.current_situation st.stop_criteria)
    && decide (st.tasks.length > 0)

/-- An injective rendering of the Python snapshot serialization
str(sorted(\x7b"task_count": tc, "completed": c, "failed": f\x7d.items()))
(lines 471-475); keys appear in sorted order, quote characters elided. -/
def serializeSnapshot (task_count completed failed : Nat) : String :=
  "[(completed, " ++ toString completed ++ "), (failed, " ++ toString failed
    ++ "), (task_count, " ++ toString task_count ++ ")]"

/-- Outcome of one pass through the while-loop body: either fall through or
`continue` to the next iteration, or `break` out because a loop was detected.
The finished field is the current task as last updated by the body. -/
inductive IterOutcome where
  | next (st : EngineState) (finished : MockTask)
  | halted (st : EngineState) (finished : MockTask)
deriving DecidableEq

/-- One pass through the body of MockProjectRuntime.execute_task_loop
(lines 425-480), with current :: rest the pending queue.  exec stands for the
awaited handler invocation (handle_task_human / handle_task_automated); an
.error result models the except-branch of lines 463-465.  The no-handler
branch executes `continue`, skipping the situation update and the loop-detector
recording, exactly as in the Python body. -/
def iterBody (exec : Handler → MockTask → Except String TaskResult)
    (st : EngineState) (current : MockTask) (rest : List MockTask) :
    IterOutcome :=
  let current := current.update_status TaskStatus.IN_PROGRESS none
  let st := { st with
    tasks := rest
    execution_graph :=
      st.execution_graph.setStatus current.id TaskStatus.IN_PROGRESS }
  match MockTaskRouter.route_task current st.ves_models st.expert_allowed with
  | none =>
      let current :=
        current.update_status TaskStatus.FAILED (some "No handler available")
      IterOutcome.next
        { st with
          execution_graph :=
            st.execution_graph.setStatus current.id TaskStatus.FAILED }
        current
  | some handler =>
      let stepResult :=
        match exec handler current with
        | Except.ok result =>
            if MockVerifier.verify_task_completion current result then
              let current := current.update_status TaskStatus.COMPLETED none
              let st := { st with
                execution_graph :=
                  st.execution_graph.setStatus current.id TaskStatus.COMPLETED
                artifacts_generated :=
                  st.artifacts_generated ++ result.artifacts }
              let st :=
                if result.new_tasks.isEmpty then st
                else
                  { st with
                    tasks := st.tasks ++ result.new_tasks
                    execution_graph :=
                      result.new_tasks.foldl MockTreeStructure.add_task
                        st.execution_graph }
              (st, current)
            else
              let current :=
                current.update_status TaskStatus.FAILED
                  (some "Verification failed")
              ({ st with
                 execution_graph :=
                   st.execution_graph.setStatus current.id TaskStatus.FAILED },
               current)
        | Except.error e =>
            let current := current.update_status TaskStatus.FAILED (some e)
            ({ st with
               execution_graph :=
                 st.execution_graph.setStatus current.id TaskStatus.FAILED },
             current)
      let st := stepResult.1
      let current := stepResult.2
      let situation := update_situation st
      let st := { st with current_situation := situation }
      let snapshot := serializeSnapshot st.tasks.length
        situation.completed_tasks situation.failed_tasks
      let st := { st with
        loop_prevention :=
          MockLoopDetector.record_state st.loop_prevention snapshot }
      if MockLoopDetector.is_loop_detected st.loop_prevention then
        IterOutcome.halted st current
      else
        IterOutcome.next st current

/-- The demo safety limit of execute_task_loop (line 419). -/
def max_iterations : Nat := 10

/-- MockProjectRuntime.execute_task_loop (lines 415-482): while should_continue
and the iteration cap is not reached, pop the head of the queue and run the
body; stop on an empty queue or when the body breaks. -/
def execute_task_loop (exec : Handler → MockTask → Except String TaskResult)
    (iteration : Nat) (st : EngineState) : EngineState :=
  if _h : should_continue st = true ∧ iteration < max_iterations then
    match st.tasks with
    | [] => st
    | current :: rest =>
        match iterBody exec st current rest with
        | IterOutcome.next st' _ => execute_task_loop exec (iteration + 1) st'
        | IterOutcome.halted st' _ => st'
  else st
termination_by max_iterations - iteration
decreasing_by
  simp_wf
  omega

namespace Handlers

/-- Task model from models/handlers.py lines 17-20. -/
structure Task where
  objective : String
  description : String
deriving DecidableEq

/-- HumanTaskHandlerConfig (models/handlers.py lines 131-135). -/
structure HumanTaskHandlerConfig where
  timeout_seconds : Nat
  notification_enabled : Bool
  escalation_enabled : Bool
deriving DecidableEq

/-- HumanTaskHandler state (models/handlers.py lines 141-163).  The
response_poll_callback takes the human id and reads external state that may
change between polls; it is modelled as indexed by the poll round.  The
notification callback only has side effects and is not modelled. -/
structure HumanTaskHandler where
  config : HumanTaskHandlerConfig
  description : String
  human_id : String
  response_poll_callback : Option (Nat → Option String)

/-- The polling loop of HumanTaskHandler.handle (lines 183-191): while the
elapsed time is below the timeout, poll once and sleep 5 time units.  A poll
answer is accepted only when it is truthy in Python, i.e. a non-empty string.
Polling itself is treated as instantaneous, so elapsed time advances by 5 per
round, exactly the sleep. -/
def pollLoop (poll : Option (Nat → Option String)) (timeout : Nat)
    (elapsed : Nat) (round : Nat) : Option String :=
  if elapsed < timeout then
    let answer :=
      match poll with
      | none => none
      | some f =>
          match f round with
          | some r => if r.isEmpty then none else some r
          | none => none
    match answer with
    | some r => some r
    | none => pollLoop poll timeout (elapsed + 5) (round + 1)
  else none
termination_by timeout - elapsed
decreasing_by
  simp_wf
  omega

/-- The escalation result string of HumanTaskHandler.handle line 195. -/
def escalationMessage (human_id : String) (timeout : Nat) (task : Task) :
    String :=
  "TIMEOUT: Human " ++ human_id ++ " did not respond within "
    ++ toString timeout ++ "s. Task: " ++ task.objective

/-- The TimeoutError message of HumanTaskHandler.handle line 197. -/
def timeoutErrorMessage (human_id : String) : String :=
  "Human " ++ human_id ++ " did not respond within timeout period"

/-- HumanTaskHandler.handle (models/handlers.py lines 165-197): poll until a
response or timeout; on timeout, return the escalation string when escalation
is enabled, else raise TimeoutError (the Except.error case). -/
def HumanTaskHandler.handle (h : HumanTaskHandler) (task : Task) :
    Except String String :=
  match pollLoop h.response_poll_callback h.config.timeout_seconds 0 0 with
  | some response => Except.ok response
  | none =>
      if h.config.escalation_enabled then
        Except.ok (escalationMessage h.human_id h.config.timeout_seconds task)
      else
        Except.error (timeoutErrorMessage h.human_id)

/-- ToolCallConfig (models/handlers.py lines 204-208); available_tools and the
per-call timeout are not consulted by the retry logic. -/
structure ToolCallConfig where
  timeout_seconds : Nat
  retry_attempts : Nat
deriving DecidableEq

/-- The fatal error message of ToolCallTaskHandler.handle line 258. -/
def retryExhaustedMessage (attempts : Nat) (e : String) : String :=
  "Tool execution failed after " ++ toString attempts ++ " attempts: " ++ e

/-- The retry loop of ToolCallTaskHandler.handle (lines 252-261): up to
retry_attempts calls of the tool executor; a success returns str(result); a
failure on the last attempt raises the fatal message, an earlier failure
sleeps 2^attempt and retries.  The executor is indexed by the attempt number
(its Python arguments are fixed across attempts but it reads external state).
The second component records the backoff sleeps performed, in order. -/
def toolRetryLoop (tool_executor : Nat → Except String String)
    (retry_attempts : Nat) (attempt : Nat) : Except String String × List Nat :=
  if attempt < retry_attempts then
    match tool_executor attempt with
    | Except.ok result => (Except.ok result, [])
    | Except.error e =>
        if attempt = retry_attempts - 1 then
          (Except.error (retryExhaustedMessage retry_attempts e), [])
        else
          let tail := toolRetryLoop tool_executor retry_attempts (attempt + 1)
          (tail.1, 2 ^ attempt :: tail.2)
  else (Except.error "Tool execution failed", [])
termination_by retry_attempts - attempt
decreasing_by
  simp_wf
  omega

/-- ToolCallTaskHandler.handle (models/handlers.py lines 232-261): run the
retry loop from attempt 0.  The final raise after the loop is reached exactly
when retry_attempts is 0.  The List Nat component is the trace of backoff
sleeps. -/
def ToolCallTaskHandler.handle (config : ToolCallConfig)
    (tool_executor : Nat → Except String String) :
    Except String String × List Nat :=
  toolRetryLoop tool_executor config.retry_attempts 0

end Handlers

/-- The finished current task carried by an iteration outcome, whichever way
the body ended. -/
def IterOutcome.finished : IterOutcome → MockTask
  | IterOutcome.next _ f => f
  | IterOutcome.halted _ f => f

/-- The termination condition exactly as the specification words it (§4.4):
resource usage ≥ token budget, elapsed time ≥ time budget, iteration count
≥ max iterations, queue exhausted with at least one completion, or
goal-satisfaction score ≥ threshold.  Stated over the code's Situation; the
iteration count and goal score, which the code's should_terminate never
receives, are extra parameters. -/
def specTerminationCondition (s : Situation) (cfg : RuntimeConfig)
    (iteration max_iter : Nat) (goal_score threshold : Rat) : Prop :=
  s.total_tokens_used ≥ cfg.token_limit
    ∨ s.execution_time ≥ cfg.time_limit
    ∨ iteration ≥ max_iter
    ∨ (s.current_task_count = 0 ∧ 1 ≤ s.completed_tasks)
    ∨ goal_score ≥ threshold

/-- Task eligibility exactly as the specification words it (§3): status
PENDING and every dependency id resolves to a COMPLETED task in the graph. -/
def specCanExecute (g : MockTreeStructure) (t : MockTask) : Bool :=
  t.status == TaskStatus.PENDING
    && t.dependencies.all fun d =>
      match dictGet g.tasks d with
      | some u => u.status == TaskStatus.COMPLETED
      | none => false

/-- A poll callback that never returns a response. -/
def silentPoll : Nat → Option String := fun _ => none

/-- A tool executor whose every attempt raises. -/
def alwaysFailingTool : Nat → Except String String :=
  fun _ => Except.error "boom"

/-- A tool executor failing on attempt 0 and succeeding on attempt 1. -/
def secondTryTool : Nat → Except String String :=
  fun i => if i = 0 then Except.error "boom" else Except.ok "tool-result"

/-- The fixed result produced by okExec. -/
def resultOk : TaskResult := ⟨true, ["art"], [], [], 0, none⟩

/-- The fixed result produced by emptyArtifactsExec. -/
def resultNoArtifacts : TaskResult := ⟨true, [], [], [], 0, none⟩

/-- A handler invocation returning a fixed successful one-artifact result. -/
def okExec : Handler → MockTask → Except String TaskResult :=
  fun _ _ => Except.ok resultOk

/-- A handler invocation returning a success flagged result with no
artifacts. -/
def emptyArtifactsExec : Handler → MockTask → Except String TaskResult :=
  fun _ _ => Except.ok resultNoArtifacts

/-- Concrete fixtures used to instantiate the engine theorems. -/
def sit0 : Situation := ⟨2, 0, 0, 0, "0MB", 0, 0, "Initialized"⟩

/-- A pending task with no parent and no dependencies. -/
def taskA : MockTask :=
  ⟨"t1", "", TaskStatus.PENDING, TaskPriority.NORMAL, none, []⟩

/-- A second pending task queued behind taskA. -/
def taskB : MockTask :=
  ⟨"t2", "", TaskStatus.PENDING, TaskPriority.NORMAL, none, []⟩

/-- An available virtual environment with load below 0.9. -/
def ve0 : MockVE := ⟨"ve", "mock-model", ["reasoning", "coding"], true, 1 / 2⟩

/-- Stop criteria with the Python defaults. -/
def cfg0 : RuntimeConfig := ⟨1000000, 3600⟩

/-- An engine state whose handler pools are both empty. -/
def stNoHandlers : EngineState :=
  ⟨[taskA, taskB], [], [], MockTreeStructure.empty, [], sit0, [], cfg0⟩

/-- The engine state after the no-handler iteration on stNoHandlers. -/
def stAfterFail : EngineState :=
  ⟨[taskB], [], [], MockTreeStructure.empty, [], sit0, [], cfg0⟩

/-- An engine state with a single available virtual environment. -/
def stWithVE : EngineState :=
  ⟨[taskA, taskB], [ve0], [], MockTreeStructure.empty, [], sit0, [], cfg0⟩

/-! Theorems. -/

/-- Claim C1, counterexample: at token usage exactly equal to the token budget
(1000 of 1000), the specification's termination condition holds (usage ≥
budget) while should_terminate returns false — the code compares with a strict
inequality and consults neither the iteration count nor the goal score. -/
theorem should_terminate_spec_gap :
    specTerminationCondition ⟨1, 0, 0, 1000, "0MB", 0, 0, ""⟩ ⟨1000, 3600⟩ 0 10 0 1
      ∧ MockConvergenceManager.should_terminate ⟨1, 0, 0, 1000, "0MB", 0, 0, ""⟩
          ⟨1000, 3600⟩ = false := by
  exact ⟨Or.inl (le_refl 1000), by decide⟩

/-- Claim C1, amended: should_terminate signals termination exactly when
token usage strictly exceeds the token limit, or elapsed time strictly exceeds
the time limit, or the pending count is 0 with at least one completed task;
iteration count and goal-satisfaction score are never consulted. -/
theorem should_terminate_characterization (s : Situation) (cfg : RuntimeConfig) :
    MockConvergenceManager.should_terminate s cfg = true ↔
      (s.total_tokens_used > cfg.token_limit
        ∨ s.execution_time > cfg.time_limit
        ∨ (s.current_task_count = 0 ∧ s.completed_tasks > 0)) := by
  simp [MockConvergenceManager.should_terminate, Nat.pos_iff_ne_zero]
  tauto

/-- Claim C2: recording the same snapshot three times starting from an empty
history makes is_loop_detected true (the latest snapshot then occurs three
times, more than twice); reset then makes it false. -/
theorem loop_detector_triple_record_detects (s : String) :
    MockLoopDetector.is_loop_detected
        (MockLoopDetector.record_state
          (MockLoopDetector.record_state (MockLoopDetector.record_state [] s) s) s)
        = true
      ∧ MockLoopDetector.is_loop_detected
          (MockLoopDetector.reset
            (MockLoopDetector.record_state
              (MockLoopDetector.record_state
                (MockLoopDetector.record_state [] s) s) s))
        = false := by
  have h3 :
      MockLoopDetector.record_state
        (MockLoopDetector.record_state (MockLoopDetector.record_state [] s) s) s
        = [s, s, s] := by
    simp [MockLoopDetector.record_state, MockLoopDetector.max_history]
  refine ⟨?_, by simp [MockLoopDetector.reset, MockLoopDetector.is_loop_detected]⟩
  rw [h3]
  simp [MockLoopDetector.is_loop_detected, List.getLast?_cons_cons]

/-- Association-list lookup after insert-or-replace finds the inserted value. -/
theorem dictGet_dictInsert_self (l : List (String × α)) (k : String) (v : α) :
    dictGet (dictInsert l k v) k = some v := by
  induction l with
  | nil => simp [dictInsert, dictGet]
  | cons p rest ih =>
      obtain ⟨k', v'⟩ := p
      by_cases hk : k' = k
      · simp [dictInsert, dictGet, hk]
      · simp [dictInsert, dictGet, hk, ih]

/-- Claim C3, counterexample: inserting a task whose id already exists in the
graph is not rejected — the graph changes, and the duplicate id is appended to
the execution path a second time. -/
theorem add_task_duplicate_id_counterexample :
    MockTreeStructure.add_task
        (MockTreeStructure.add_task MockTreeStructure.empty
          ⟨"a", "", TaskStatus.PENDING, TaskPriority.NORMAL, none, []⟩)
        ⟨"a", "", TaskStatus.PENDING, TaskPriority.NORMAL, none, []⟩
      ≠ MockTreeStructure.add_task MockTreeStructure.empty
          ⟨"a", "", TaskStatus.PENDING, TaskPriority.NORMAL, none, []⟩
    ∧ (MockTreeStructure.add_task
        (MockTreeStructure.add_task MockTreeStructure.empty
          ⟨"a", "", TaskStatus.PENDING, TaskPriority.NORMAL, none, []⟩)
        ⟨"a", "", TaskStatus.PENDING, TaskPriority.NORMAL, none, []⟩).execution_path
      = ["a", "a"] := by
  decide

/-- Claim C3, amended: add_task performs no validation at all — for every
graph and task it stores the task under its id (replacing any existing entry),
appends the id to the execution path, and when a parent id is present appends
the id to the parent's child list, creating that entry even when the parent id
resolves to no existing task. -/
theorem add_task_unconditional_insert (g : MockTreeStructure) (t : MockTask) :
    dictGet (MockTreeStructure.add_task g t).tasks t.id = some t
      ∧ (MockTreeStructure.add_task g t).execution_path
          = g.execution_path ++ [t.id]
      ∧ (match t.parent_task_id with
          | none => (MockTreeStructure.add_task g t).parent_child = g.parent_child
          | some p =>
              dictGet (MockTreeStructure.add_task g t).parent_child p
                = some ((dictGet g.parent_child p).getD [] ++ [t.id])) := by
  refine ⟨dictGet_dictInsert_self g.tasks t.id t, rfl, ?_⟩
  cases hp : t.parent_task_id with
  | none => simp [MockTreeStructure.add_task, hp]
  | some p =>
      cases hc : dictGet g.parent_child p with
      | none =>
          simp [MockTreeStructure.add_task, hp, hc, dictGet_dictInsert_self]
      | some children =>
          simp [MockTreeStructure.add_task, hp, hc, dictGet_dictInsert_self]

/-- Claim C4, counterexample: a COMPLETED task fed back through update_status
comes out PENDING — the terminal state is not sticky. -/
theorem update_status_terminal_counterexample :
    (MockTask.update_status
        ⟨"a", "", TaskStatus.COMPLETED, TaskPriority.NORMAL, none, []⟩
        TaskStatus.PENDING none).status = TaskStatus.PENDING
      ∧ TaskStatus.PENDING ≠ TaskStatus.COMPLETED := by
  decide

/-- Claim C4, amended: update_status installs the requested status
unconditionally — including transitions out of COMPLETED, FAILED and
CANCELLED — while preserving every other task field. -/
theorem update_status_sets_status (t : MockTask) (s : TaskStatus)
    (m : Option String) :
    (t.update_status s m).status = s
      ∧ (t.update_status s m).id = t.id
      ∧ (t.update_status s m).description = t.description
      ∧ (t.update_status s m).priority = t.priority
      ∧ (t.update_status s m).parent_task_id = t.parent_task_id
      ∧ (t.update_status s m).dependencies = t.dependencies := by
  simp [MockTask.update_status]

/-- Claim C6, counterexample: a PENDING task with a single dependency that
resolves to a COMPLETED task is eligible under the specification's wording but
can_execute returns false — the code requires the dependency list itself to be
empty and never consults dependency statuses. -/
theorem can_execute_spec_gap :
    specCanExecute
        (MockTreeStructure.add_task MockTreeStructure.empty
          ⟨"d", "", TaskStatus.COMPLETED, TaskPriority.NORMAL, none, []⟩)
        ⟨"t", "", TaskStatus.PENDING, TaskPriority.NORMAL, none, ["d"]⟩ = true
      ∧ MockTask.can_execute
          ⟨"t", "", TaskStatus.PENDING, TaskPriority.NORMAL, none, ["d"]⟩
        = false := by
  decide

/-- Claim C6, amended: can_execute returns true exactly when the task is
PENDING and its dependency list is empty. -/
theorem can_execute_characterization (t : MockTask) :
    t.can_execute = true ↔ t.status = TaskStatus.PENDING ∧ t.dependencies = [] := by
  simp [MockTask.can_execute, List.isEmpty_iff, beq_iff_eq]

/-- One record_state call keeps the history within capacity. -/
theorem record_state_length_le (hist : List String) (s : String)
    (h : hist.length ≤ MockLoopDetector.max_history) :
    (MockLoopDetector.record_state hist s).length
      ≤ MockLoopDetector.max_history := by
  unfold MockLoopDetector.record_state MockLoopDetector.max_history at *
  dsimp only
  split <;> simp_all

/-- Any fold of record_state calls from a within-capacity history stays within
capacity. -/
theorem foldl_record_state_length_le (ops : List String) (acc : List String)
    (h : acc.length ≤ MockLoopDetector.max_history) :
    (ops.foldl MockLoopDetector.record_state acc).length
      ≤ MockLoopDetector.max_history := by
  induction ops generalizing acc with
  | nil => simpa
  | cons o os ih => exact ih _ (record_state_length_le acc o h)

/-- Claim C9: the detector history is a fixed-capacity buffer — after any
sequence of record_state calls from empty the length is at most 20, and a
record into a full buffer evicts exactly the oldest entry, preserving the
order of the remaining entries. -/
theorem loop_detector_bounded_capacity (ops : List String) (h : List String)
    (s : String) (hfull : h.length = MockLoopDetector.max_history) :
    (ops.foldl MockLoopDetector.record_state []).length
        ≤ MockLoopDetector.max_history
      ∧ MockLoopDetector.record_state h s = h.tail ++ [s] := by
  refine ⟨foldl_record_state_length_le ops [] (by simp), ?_⟩
  cases h with
  | nil => simp [MockLoopDetector.max_history] at hfull
  | cons a as =>
      unfold MockLoopDetector.record_state
      rw [if_pos]
      · simp
      · simp_all [MockLoopDetector.max_history]

/-- Closed instance of loop_detector_bounded_capacity at a full 20-entry
buffer. -/
theorem loop_detector_bounded_capacity_witness :
    (List.replicate 20 "x").length = MockLoopDetector.max_history
      ∧ ((["a"] : List String).foldl MockLoopDetector.record_state []).length
          ≤ MockLoopDetector.max_history
      ∧ MockLoopDetector.record_state (List.replicate 20 "x") "y"
          = (List.replicate 20 "x").tail ++ ["y"] :=
  ⟨by decide,
    loop_detector_bounded_capacity ["a"] (List.replicate 20 "x") "y" (by decide)⟩

/-- A poll callback that never answers makes the whole polling loop return
none, whatever the timeout. -/
theorem pollLoop_all_none (f : Nat → Option String) (hf : ∀ n, f n = none)
    (timeout : Nat) (elapsed round : Nat) :
    Handlers.pollLoop (some f) timeout elapsed round = none := by
  have key : ∀ fuel elapsed round, timeout - elapsed ≤ fuel →
      Handlers.pollLoop (some f) timeout elapsed round = none := by
    intro fuel
    induction fuel with
    | zero =>
        intro e r hle
        rw [Handlers.pollLoop]
        have he : ¬ e < timeout := by omega
        simp [he]
    | succ n ih =>
        intro e r hle
        rw [Handlers.pollLoop]
        by_cases he : e < timeout
        · simp [he, hf r]
          exact ih (e + 5) (r + 1) (by omega)
        · simp [he]
  exact key (timeout - elapsed) elapsed round (le_refl _)

/-- Claim C7: when polling yields no response before the timeout, handle
returns the escalation artifact (the string referencing the timeout, the
human id and the task objective) when escalation is enabled, and raises the
TimeoutError (the Except.error case) when escalation is disabled; in neither
case is the task failed by the handler itself. -/
theorem human_handler_timeout_escalation (cfg : Handlers.HumanTaskHandlerConfig)
    (desc hid : String) (f : Nat → Option String) (task : Handlers.Task)
    (hf : ∀ n, f n = none) :
    Handlers.HumanTaskHandler.handle ⟨cfg, desc, hid, some f⟩ task
      = if cfg.escalation_enabled then
          Except.ok (Handlers.escalationMessage hid cfg.timeout_seconds task)
        else Except.error (Handlers.timeoutErrorMessage hid) := by
  unfold Handlers.HumanTaskHandler.handle
  rw [pollLoop_all_none f hf]

/-- Closed instance of human_handler_timeout_escalation: timeout 5 with
escalation enabled and a silent poll callback yields the escalation string. -/
theorem human_handler_timeout_escalation_witness :
    Handlers.HumanTaskHandler.handle
        ⟨⟨5, true, true⟩, "d", "h1", some silentPoll⟩ ⟨"obj", "desc"⟩
      = Except.ok (Handlers.escalationMessage "h1" 5 ⟨"obj", "desc"⟩) := by
  have h := human_handler_timeout_escalation ⟨5, true, true⟩ "d" "h1" silentPoll
    ⟨"obj", "desc"⟩ (fun _ => rfl)
  simpa using h

/-- When every attempt up to retry_attempts fails, the retry loop started at
attempt a (with a + d + 1 = retry_attempts) raises the exhaustion message and
sleeps 2^a, 2^(a+1), ... between the remaining attempts. -/
theorem toolRetryLoop_all_fail (exec : Nat → Except String String)
    (errs : Nat → String) (n : Nat)
    (hfail : ∀ i, i < n → exec i = Except.error (errs i)) :
    ∀ d a, a + d + 1 = n →
      Handlers.toolRetryLoop exec n a
        = (Except.error (Handlers.retryExhaustedMessage n (errs (n - 1))),
           (List.range d).map fun j => 2 ^ (a + j)) := by
  intro d
  induction d with
  | zero =>
      intro a ha
      rw [Handlers.toolRetryLoop]
      have h2 : a = n - 1 := by omega
      subst h2
      have h1 : n - 1 < n := by omega
      simp [h1, hfail _ h1]
  | succ d ih =>
      intro a ha
      rw [Handlers.toolRetryLoop]
      have h1 : a < n := by omega
      have h2 : ¬ a = n - 1 := by omega
      simp only [h1, if_pos, hfail a h1, h2, if_neg, ite_false, dite_false]
      rw [ih (a + 1) (by omega)]
      refine Prod.ext rfl ?_
      simp only [List.range_succ_eq_map, List.map_cons, List.map_map,
        Nat.add_zero]
      refine congrArg (2 ^ a :: ·) ?_
      refine List.map_congr_left ?_
      intro j _
      simp [Function.comp]
      omega

/-- When attempts before k fail and attempt k succeeds, the retry loop started
at any a ≤ k returns that success. -/
theorem toolRetryLoop_first_success (exec : Nat → Except String String)
    (errs : Nat → String) (n k : Nat) (r : String)
    (hbefore : ∀ i, i < k → exec i = Except.error (errs i))
    (hk : exec k = Except.ok r) (hkn : k < n) :
    ∀ d a, a + d = k → (Handlers.toolRetryLoop exec n a).1 = Except.ok r := by
  intro d
  induction d with
  | zero =>
      intro a ha
      have hak : a = k := by omega
      subst hak
      rw [Handlers.toolRetryLoop]
      simp [show a < n by omega, hk]
  | succ d ih =>
      intro a ha
      have han : a < n := by omega
      have hak : a < k := by omega
      have hne : ¬ a = n - 1 := by omega
      rw [Handlers.toolRetryLoop]
      simp only [han, if_pos, hbefore a hak, hne, ite_false]
      exact ih (a + 1) (by omega)

/-- Claim C8, counterexample: with retry_attempts configured to 0 the executor
is never attempted and handle raises the generic final error, which does not
mention a number of attempts (it does not even contain the word attempts), so
the claim as stated fails for that invocation. -/
theorem tool_handler_zero_attempts_counterexample :
    Handlers.ToolCallTaskHandler.handle ⟨60, 0⟩ alwaysFailingTool
        = (Except.error "Tool execution failed", [])
      ∧ strContains "Tool execution failed" "attempts" = false := by
  constructor
  · unfold Handlers.ToolCallTaskHandler.handle
    rw [Handlers.toolRetryLoop]
    simp
  · decide

/-- Claim C8, amended: provided retry_attempts is at least 1, the tool is
attempted at most retry_attempts times with exponential backoff 2^0, 2^1, ...
between attempts; when every attempt raises, handle raises the fatal message
naming retry_attempts together with the last error, and when some attempt
succeeds after earlier failures its result is returned.  With retry_attempts
= 0 the handler instead raises a generic error naming no attempt count. -/
theorem tool_handler_retry_behavior (cfg : Handlers.ToolCallConfig)
    (execA : Nat → Except String String) (errs : Nat → String)
    (execB : Nat → Except String String) (k : Nat) (r : String)
    (hn : 1 ≤ cfg.retry_attempts)
    (hfailA : ∀ i, i < cfg.retry_attempts → execA i = Except.error (errs i))
    (hbeforeB : ∀ i, i < k → execB i = Except.error (errs i))
    (hokB : execB k = Except.ok r) (hkn : k < cfg.retry_attempts) :
    Handlers.ToolCallTaskHandler.handle cfg execA
        = (Except.error
            (Handlers.retryExhaustedMessage cfg.retry_attempts
              (errs (cfg.retry_attempts - 1))),
           (List.range (cfg.retry_attempts - 1)).map fun j => 2 ^ j)
      ∧ (Handlers.ToolCallTaskHandler.handle cfg execB).1 = Except.ok r := by
  constructor
  · unfold Handlers.ToolCallTaskHandler.handle
    have h := toolRetryLoop_all_fail execA errs cfg.retry_attempts hfailA
      (cfg.retry_attempts - 1) 0 (by omega)
    simpa using h
  · exact toolRetryLoop_first_success execB errs cfg.retry_attempts k r
      hbeforeB hokB hkn k 0 (by omega)

/-- Closed instance of tool_handler_retry_behavior with 3 attempts: the
always-failing executor exhausts retries with backoff sleeps [1, 2] and the
message naming 3 attempts, while the executor succeeding on its second attempt
returns its result. -/
theorem tool_handler_retry_behavior_witness :
    Handlers.ToolCallTaskHandler.handle ⟨60, 3⟩ alwaysFailingTool
        = (Except.error "Tool execution failed after 3 attempts: boom", [1, 2])
      ∧ (Handlers.ToolCallTaskHandler.handle ⟨60, 3⟩ secondTryTool).1
        = Except.ok "tool-result" := by
  have h := tool_handler_retry_behavior ⟨60, 3⟩ alwaysFailingTool
    (fun _ => "boom") secondTryTool 1 "tool-result" (by decide)
    (fun i _ => rfl)
    (fun i hi => by
      have : i = 0 := by omega
      subst this
      rfl)
    rfl (by decide)
  refine ⟨?_, h.2⟩
  rw [h.1]
  rfl

/-- When no expert and no VE can handle the task, the router returns none. -/
theorem route_task_none_of_no_handler (t : MockTask) (ves : List MockVE)
    (users : List MockUser)
    (hu : ∀ u ∈ users, u.can_handle_task t = false)
    (hv : ∀ v ∈ ves, v.can_handle_task t = false) :
    MockTaskRouter.route_task t ves users = none := by
  have h1 : users.find? (fun u => u.can_handle_task t) = none :=
    List.find?_eq_none.mpr fun u hmem => by simp [hu u hmem]
  have h2 : ves.find? (fun v => v.can_handle_task t) = none :=
    List.find?_eq_none.mpr fun v hmem => by simp [hv v hmem]
  simp [MockTaskRouter.route_task, h1, h2]

/-- Unfolding one iteration of the execution loop when the body signals
continuation: the loop recurses on the updated state. -/
theorem execute_task_loop_step
    (exec : Handler → MockTask → Except String TaskResult)
    (iteration : Nat) (st : EngineState) (t : MockTask) (rest : List MockTask)
    (hq : st.tasks = t :: rest)
    (hc : should_continue st = true) (hit : iteration < max_iterations)
    (st' : EngineState) (fin : MockTask)
    (hbody : iterBody exec st t rest = IterOutcome.next st' fin) :
    execute_task_loop exec iteration st
      = execute_task_loop exec (iteration + 1) st' := by
  conv_lhs => rw [execute_task_loop]
  rw [dif_pos ⟨hc, hit⟩, hq]
  dsimp only
  rw [hbody]

/-- Claim C5: when no available handler matches the current task, the loop
body marks exactly that task FAILED (both the task object and its graph
entry), leaves the queue tail, artifacts, situation and detector history
untouched, and the execution loop proceeds with the next queued task at the
next iteration instead of retrying the routing or aborting the run.  The
"No handler available" message handed to update_status is print-only. -/
theorem no_handler_marks_failed_and_continues
    (exec : Handler → MockTask → Except String TaskResult)
    (st : EngineState) (t : MockTask) (rest : List MockTask) (iteration : Nat)
    (hq : st.tasks = t :: rest)
    (hu : ∀ u ∈ st.expert_allowed, u.can_handle_task t = false)
    (hv : ∀ v ∈ st.ves_models, v.can_handle_task t = false)
    (hc : should_continue st = true) (hit : iteration < max_iterations) :
    iterBody exec st t rest
        = IterOutcome.next
            { st with
              tasks := rest
              execution_graph :=
                (st.execution_graph.setStatus t.id
                    TaskStatus.IN_PROGRESS).setStatus t.id TaskStatus.FAILED }
            { t with status := TaskStatus.FAILED }
      ∧ execute_task_loop exec iteration st
        = execute_task_loop exec (iteration + 1)
            { st with
              tasks := rest
              execution_graph :=
                (st.execution_graph.setStatus t.id
                    TaskStatus.IN_PROGRESS).setStatus t.id TaskStatus.FAILED } := by
  have hroute : MockTaskRouter.route_task
      (t.update_status TaskStatus.IN_PROGRESS none) st.ves_models
      st.expert_allowed = none :=
    route_task_none_of_no_handler _ _ _ hu hv
  have hbody : iterBody exec st t rest
      = IterOutcome.next
          { st with
            tasks := rest
            execution_graph :=
              (st.execution_graph.setStatus t.id
                  TaskStatus.IN_PROGRESS).setStatus t.id TaskStatus.FAILED }
          { t with status := TaskStatus.FAILED } := by
    unfold iterBody
    dsimp only
    rw [hroute]
    rfl
  exact ⟨hbody, execute_task_loop_step exec iteration st t rest hq hc hit _ _ hbody⟩

/-- Closed instance of no_handler_marks_failed_and_continues: with empty
handler pools the first queued task comes out FAILED and the loop moves on to
the second task. -/
theorem no_handler_marks_failed_and_continues_witness :
    stNoHandlers.tasks = taskA :: [taskB]
      ∧ should_continue stNoHandlers = true
      ∧ iterBody okExec stNoHandlers taskA [taskB]
          = IterOutcome.next
              { stNoHandlers with
                tasks := [taskB]
                execution_graph :=
                  (stNoHandlers.execution_graph.setStatus taskA.id
                      TaskStatus.IN_PROGRESS).setStatus taskA.id
                    TaskStatus.FAILED }
              { taskA with status := TaskStatus.FAILED }
      ∧ execute_task_loop okExec 0 stNoHandlers
          = execute_task_loop okExec 1
              { stNoHandlers with
                tasks := [taskB]
                execution_graph :=
                  (stNoHandlers.execution_graph.setStatus taskA.id
                      TaskStatus.IN_PROGRESS).setStatus taskA.id
                    TaskStatus.FAILED } := by
  have h := no_handler_marks_failed_and_continues okExec stNoHandlers taskA
    [taskB] 0 rfl (by simp [stNoHandlers]) (by simp [stNoHandlers])
    (by decide) (by decide)
  exact ⟨rfl, by decide, h.1, h.2⟩

/-- Claim C10: the Verifier accepts a result exactly when its success flag is
set and its artifacts list is non-empty; and in the execution loop, once the
current task is routed and its handler returns a result, the task finishes the
iteration COMPLETED precisely when the Verifier accepts that result, and
FAILED otherwise (the "Verification failed" message is print-only). -/
theorem verifier_gates_completion
    (exec : Handler → MockTask → Except String TaskResult)
    (st : EngineState) (t : MockTask) (rest : List MockTask)
    (handler : Handler) (r : TaskResult)
    (hroute : MockTaskRouter.route_task
        (t.update_status TaskStatus.IN_PROGRESS none) st.ves_models
        st.expert_allowed = some handler)
    (hexec : exec handler (t.update_status TaskStatus.IN_PROGRESS none)
        = Except.ok r) :
    (MockVerifier.verify_task_completion t r = true
        ↔ (r.success = true ∧ r.artifacts ≠ []))
      ∧ (iterBody exec st t rest).finished
        = { t with
            status :=
              if MockVerifier.verify_task_completion t r then
                TaskStatus.COMPLETED
              else TaskStatus.FAILED } := by
  constructor
  · simp [MockVerifier.verify_task_completion, List.length_eq_zero]
  · have hVt : MockVerifier.verify_task_completion t r
        = MockVerifier.verify_task_completion
            (t.update_status TaskStatus.IN_PROGRESS none) r := rfl
    rw [hVt]
    unfold iterBody
    dsimp only
    rw [hroute]
    dsimp only
    rw [hexec]
    by_cases hV : MockVerifier.verify_task_completion
        (t.update_status TaskStatus.IN_PROGRESS none) r = true
    · simp only [hV, ite_true]
      split
      · split <;> rfl
      · split <;> rfl
    · simp only [Bool.not_eq_true] at hV
      simp only [hV, Bool.false_eq_true, ite_false]
      split <;> rfl

/-- Closed instance of verifier_gates_completion: with one available VE, a
successful one-artifact result finishes the task COMPLETED, and a successful
zero-artifact result is rejected by the verifier and finishes it FAILED. -/
theorem verifier_gates_completion_witness :
    (MockVerifier.verify_task_completion taskA resultOk = true
        ↔ (resultOk.success = true ∧ resultOk.artifacts ≠ []))
      ∧ (iterBody okExec stWithVE taskA [taskB]).finished
          = { taskA with status := TaskStatus.COMPLETED }
      ∧ (iterBody emptyArtifactsExec stWithVE taskA [taskB]).finished
          = { taskA with status := TaskStatus.FAILED } := by
  have hcan : MockVE.can_handle_task ve0
      (taskA.update_status TaskStatus.IN_PROGRESS none) = true := by
    simp [MockVE.can_handle_task, ve0]
    norm_num
  have hroute : MockTaskRouter.route_task
      (taskA.update_status TaskStatus.IN_PROGRESS none) stWithVE.ves_models
      stWithVE.expert_allowed = some (Handler.ve ve0) := by
    simp [MockTaskRouter.route_task, stWithVE, List.find?, hcan]
  have h1 := verifier_gates_completion okExec stWithVE taskA [taskB]
    (Handler.ve ve0) resultOk hroute rfl
  have h2 := verifier_gates_completion emptyArtifactsExec stWithVE taskA [taskB]
    (Handler.ve ve0) resultNoArtifacts hroute rfl
  refine ⟨h1.1, ?_, ?_⟩
  · rw [h1.2]
    decide
  · rw [h2.2]
    decide

end KeepAgentRunning
